import Mathlib

/-
Verification development for the cisco_cli repository.

The repository is a bulk network-device command runner.  The canonical
implementation is `show_cli/main.py`; `src/show_v2.py` and `src/show_v3.py`
are legacy near-duplicate variants.  This file gives a shallow embedding of
the orchestration layer: the per-device task (`connect_and_run_single`),
the dispatch/collection engine (`connect_and_run`), the target
deduplication step of `main`, and the config merge (`merge_args_with_config`).

Modelling conventions:
 - The session transport (netmiko `ConnectHandler`) is an external
   collaborator; a device is modelled by `DeviceBehavior`: either the
   connection attempt raises with some cause message, or it yields a session
   with an optional failure at `enable()`, a reported prompt, and a
   response-or-failure per command (`send_command_timing`).
 - Machine strings are Lean `String`s; Python f-strings become explicit
   concatenations.
 - The thread pool plus `as_completed` loop is modelled by an explicit
   completion order: a list of targets that is (in the theorems) a
   permutation of the submitted target list.  All writes to the combined
   file and to the aggregate lists happen in the single collector loop in
   the source, so serialising them in completion order is faithful.
 - The filesystem is a map from file name to content; `fsWrite` models
   `open(path, "w")` followed by a single `write` (truncate-and-overwrite).
 - The per-device file write sits INSIDE the task's try block, after the
   hostname and output keys are assigned, and can itself raise (for
   example a hostname containing a path separator makes the derived file
   name an invalid path, so open raises OSError).  This is modelled by a
   `writeFail` oracle mapping a file name to the cause message of an error
   raised at open, or none when open and write succeed; a failing open
   creates no file.  The artifact writes performed by `connect_and_run`
   itself (error log, failed-target list, combined file) are not inside any
   except block in the source - a failure there propagates and aborts the
   run - and are modelled as succeeding.
 - Each task also reports the list of per-device file writes it performed,
   so that claims about which files a task creates are statements about an
   explicit write log.
-/

namespace ShowCli

/-- Model of Python `s.strip('#')` (used on `ssh.find_prompt()` in
`connect_and_run_single`): removes every leading and trailing `'#'`
character. -/
def pyStripHash (s : String) : String :=
  String.mk (((s.toList.dropWhile (fun c => c = '#')).reverse.dropWhile
    (fun c => c = '#')).reverse)

/-- Modelled from the spec: the hostname trimming as the spec words it,
removing only the TRAILING prompt delimiter characters `'#'`.  Used to
compare the spec wording with the source, which strips both ends. -/
def specTrimTrailingHash (s : String) : String :=
  String.mk ((s.toList.reverse.dropWhile (fun c => c = '#')).reverse)

/-- Model of Python `ip.replace('.', '_')` (single-character pattern, so a
character-wise map is exact). -/
def replaceDots (s : String) : String :=
  String.mk (s.toList.map (fun c => if c = '.' then '_' else c))

/-- Model of Python `key.replace('-', '_')` in `merge_args_with_config`. -/
def replaceDashUnderscore (s : String) : String :=
  String.mk (s.toList.map (fun c => if c = '-' then '_' else c))

/-- The ASCII whitespace characters Python `str.strip()` removes. -/
def isPyWhitespace (c : Char) : Bool :=
  c = ' ' || c = '\t' || c = '\n' || c = '\r' || c = '\x0b' || c = '\x0c'

/-- Model of Python `s.strip()` (no argument): remove leading and trailing
whitespace. -/
def pyStrip (s : String) : String :=
  String.mk (((s.toList.dropWhile isPyWhitespace).reverse.dropWhile
    isPyWhitespace).reverse)

/-- Model of Python `s.lower()` on ASCII strings. -/
def pyLower (s : String) : String :=
  String.mk (s.toList.map Char.toLower)

/-- Model of Python `"".join(pieces)`. -/
def concatAll : List String → String
  | [] => ""
  | s :: rest => s ++ concatAll rest

/-- Content of an artifact file written as one record per line, each
followed by a newline (the `handle.write(line + "\n")` loop in
`connect_and_run`). -/
def joinLines (lines : List String) : String :=
  concatAll (lines.map (fun l => l ++ "\n"))

/-- The per-device result dictionary built by `connect_and_run_single`.
`hostname` is `none` when the `"hostname"` key is absent (the key is only
assigned on the success path, after all commands ran). -/
structure TaskResult where
  ip : String
  success : Bool
  output : String
  error : String
  hostname : Option String
deriving Repr, DecidableEq

/-- Behaviour of an established transport session: `enableError` is the
cause message if `ssh.enable()` raises, `prompt` is what `find_prompt`
returns, and `send c` is the output of `send_command_timing c` or the cause
message if it raises. -/
structure SessionBehavior where
  enableError : Option String
  prompt : String
  send : String → Except String String

/-- Behaviour of one device as seen through the transport: either
`ConnectHandler` raises with a cause message, or a session is established. -/
inductive DeviceBehavior where
  | connectFail (cause : String)
  | connected (sess : SessionBehavior)

/-- One formatted command section, the f-string
`"\n=== {hostname} ({ip}) - {cmd} ===\n{output}\n"` from
`connect_and_run_single` written as explicit concatenation. -/
def fragment (hostname ip cmd out : String) : String :=
  "\n=== " ++ hostname ++ " (" ++ ip ++ ") - " ++ cmd ++ " ===\n" ++ out ++ "\n"

/-- The command loop of `connect_and_run_single`: send each command in
order, accumulating formatted fragments; a raising send aborts the loop
with that cause (the accumulated fragments are discarded, as in the source
where `result["output"]` is only assigned after the loop). -/
def runCommands (sess : SessionBehavior) (hostname ip : String) :
    List String → Except String (List String)
  | [] => .ok []
  | cmd :: rest =>
    match sess.send cmd with
    | .error cause => .error cause
    | .ok out =>
      match runCommands sess hostname ip rest with
      | .error cause => .error cause
      | .ok frags => .ok (fragment hostname ip cmd out :: frags)

/-- Raw outputs of all sends when every send succeeds. -/
def sendAll (sess : SessionBehavior) : List String → Except String (List String)
  | [] => .ok []
  | cmd :: rest =>
    match sess.send cmd with
    | .error cause => .error cause
    | .ok out =>
      match sendAll sess rest with
      | .error cause => .error cause
      | .ok outs => .ok (out :: outs)

/-- Cause of the first raising send in the command loop, if any. -/
def firstSendFailure (sess : SessionBehavior) : List String → Option String
  | [] => none
  | cmd :: rest =>
    match sess.send cmd with
    | .error cause => some cause
    | .ok _ => firstSendFailure sess rest

/-- Cause of the first transport failure a task on this device hits
(connect, then enable, then each command in order), if any. -/
def firstFailure (b : DeviceBehavior) (commands : List String) : Option String :=
  match b with
  | .connectFail cause => some cause
  | .connected sess =>
    match sess.enableError with
    | some cause => some cause
    | none => firstSendFailure sess commands

/-- The result dictionary as the `except` block of
`show_cli/main.py::connect_and_run_single` leaves it:
`success = False`, `error = f"{ip}: {exc}"`, output untouched (empty),
hostname key never assigned. -/
def failResult (ip cause : String) : TaskResult :=
  { ip := ip, success := false, output := "", error := ip ++ ": " ++ cause,
    hostname := none }

/-- The result dictionary as the `except` block of
`src/show_v2.py` / `src/show_v3.py::connect_and_run_single` leaves it:
the error string carries a `"[ERROR] "` prefix. -/
def failResultV2 (ip cause : String) : TaskResult :=
  { ip := ip, success := false, output := "",
    error := "[ERROR] " ++ ip ++ ": " ++ cause, hostname := none }

/-- `show_cli/main.py::connect_and_run_single`.  `writeFail` is the local
filesystem's behaviour when the task opens its per-device file for writing:
none means the open and the single write succeed, some cause means open
raises with that message (so no file is created).  Returns the task result
together with the per-device file writes the task performed (name,
content); in combine mode the task performs no file writes (it prints to
stdout under the lock, and the combined file is written by the collector).
A write failure lands in the same broad except block as transport
failures, but only AFTER the hostname and output keys were assigned, so
the returned dictionary then carries the hostname and the formatted
output alongside success False and the error string. -/
def connect_and_run_single (behavior : DeviceBehavior)
    (writeFail : String → Option String)
    (ip username password enable : String) (commands : List String)
    (combine_output : Bool) : TaskResult × List (String × String) :=
  match behavior with
  | .connectFail cause => (failResult ip cause, [])
  | .connected sess =>
    match sess.enableError with
    | some cause => (failResult ip cause, [])
    | none =>
      let hostname := pyStripHash sess.prompt
      match runCommands sess hostname ip commands with
      | .error cause => (failResult ip cause, [])
      | .ok frags =>
        let output := concatAll frags
        if combine_output then
          ({ ip := ip, success := true, output := output, error := "",
             hostname := some hostname }, [])
        else
          let fname := hostname ++ "_" ++ replaceDots ip ++ ".txt"
          match writeFail fname with
          | some cause =>
            ({ ip := ip, success := false, output := output,
               error := ip ++ ": " ++ cause, hostname := some hostname },
             [])
          | none =>
            ({ ip := ip, success := true, output := output, error := "",
               hostname := some hostname }, [(fname, output)])

/-- `src/show_v2.py::connect_and_run_single` (same logic as `show_v3.py`):
identical to the packaged variant except that the error string is
`f"[ERROR] {ip}: {e}"`. -/
def connect_and_run_single_v2 (behavior : DeviceBehavior)
    (writeFail : String → Option String)
    (ip username password enable : String) (commands : List String)
    (combine_output : Bool) : TaskResult × List (String × String) :=
  match behavior with
  | .connectFail cause => (failResultV2 ip cause, [])
  | .connected sess =>
    match sess.enableError with
    | some cause => (failResultV2 ip cause, [])
    | none =>
      let hostname := pyStripHash sess.prompt
      match runCommands sess hostname ip commands with
      | .error cause => (failResultV2 ip cause, [])
      | .ok frags =>
        let output := concatAll frags
        if combine_output then
          ({ ip := ip, success := true, output := output, error := "",
             hostname := some hostname }, [])
        else
          let fname := hostname ++ "_" ++ replaceDots ip ++ ".txt"
          match writeFail fname with
          | some cause =>
            ({ ip := ip, success := false, output := output,
               error := "[ERROR] " ++ ip ++ ": " ++ cause,
               hostname := some hostname }, [])
          | none =>
            ({ ip := ip, success := true, output := output, error := "",
               hostname := some hostname }, [(fname, output)])

/-- The output directory as a map from file name to content. -/
abbrev FileSystem : Type := String → Option String

/-- Model of `open(name, "w")` + one full `write(content)`: truncate and
overwrite whatever was there. -/
def fsWrite (fs : FileSystem) (name content : String) : FileSystem :=
  fun n => if n = name then some content else fs n

/-- Apply a log of writes in order. -/
def fsWrites (fs : FileSystem) : List (String × String) → FileSystem
  | [] => fs
  | (n, c) :: ws => fsWrites (fsWrite fs n c) ws

/-- Content of the last write to `n` in a write log, if any. -/
def lastWrite : List (String × String) → String → Option String
  | [], _ => none
  | (m, c) :: rest, n =>
    match lastWrite rest n with
    | some d => some d
    | none => if m = n then some c else none

/-- First-defined choice between two optional values. -/
def orOpt (a b : Option String) : Option String :=
  match a with
  | some c => some c
  | none => b

/-- The task phase of `connect_and_run`: one task per target in the given
completion order; results in completion order, with the concatenated log of
per-device file writes.  Each task's result depends only on its own device
behaviour, never on a sibling. -/
def runTasks (net : String → DeviceBehavior)
    (writeFail : String → Option String)
    (username password enable : String) (commands : List String)
    (combine_output : Bool) :
    List String → List TaskResult × List (String × String)
  | [] => ([], [])
  | ip :: rest =>
    let one := connect_and_run_single (net ip) writeFail ip username password
      enable commands combine_output
    let others := runTasks net writeFail username password enable commands
      combine_output rest
    (one.1 :: others.1, one.2 ++ others.2)

/-- The failed results, in the order the collector saw them. -/
def failedResults (results : List TaskResult) : List TaskResult :=
  results.filter (fun r => !r.success)

/-- The `error_log` list built by the collector loop: one error string per
failed task, completion order. -/
def errorLog (results : List TaskResult) : List String :=
  (failedResults results).map (fun r => r.error)

/-- The `failed_ips` list built by the collector loop: one target per
failed task, completion order. -/
def failedIps (results : List TaskResult) : List String :=
  (failedResults results).map (fun r => r.ip)

/-- Final content of `combined_output.txt`: the collector writes each
successful result's full `output` string, in completion order. -/
def combinedContent (results : List TaskResult) : String :=
  concatAll ((results.filter (fun r => r.success)).map (fun r => r.output))

/-- The artifact writes `connect_and_run` performs after all tasks
completed: the error log and the failed-target list, each written only when
its list is non-empty. -/
def artifactWrites (results : List TaskResult) : List (String × String) :=
  (if errorLog results = [] then []
   else [("connection_errors.txt", joinLines (errorLog results))]) ++
  (if failedIps results = [] then []
   else [("failed_ips.txt", joinLines (failedIps results))])

/-- `show_cli/main.py::connect_and_run`, parameterised by the completion
order in which `as_completed` yields the futures.  Returns the collected
results (completion order) and the full serialised write log: per-device
writes from the tasks, then the combined file (combine mode opens it fresh
and its final content is the collector's concatenation), then the failure
artifacts. -/
def connect_and_run (net : String → DeviceBehavior)
    (writeFail : String → Option String)
    (username password enable : String) (commands : List String)
    (combine_output : Bool) (completion_order : List String) :
    List TaskResult × List (String × String) :=
  let tasks := runTasks net writeFail username password enable commands
    combine_output completion_order
  let combinedWrites :=
    if combine_output then [("combined_output.txt", combinedContent tasks.1)]
    else []
  (tasks.1, tasks.2 ++ combinedWrites ++ artifactWrites tasks.1)

/-- Model of `list(dict.fromkeys(ip_list))` in `main`: insertion-order
deduplication, keeping the first occurrence of each address. -/
def pyDedup (l : List String) : List String :=
  l.foldl (fun acc x => if x ∈ acc then acc else acc ++ [x]) []

/-- Modelled from the spec wording: traverse the list and keep an element
exactly when it has not occurred earlier (`seen` is the list of elements
already encountered). -/
def specDedupGo (seen : List String) : List String → List String
  | [] => []
  | x :: rest =>
    if x ∈ seen then specDedupGo seen rest
    else x :: specDedupGo (x :: seen) rest

/-- Modelled from the spec wording: keep first occurrences, in order. -/
def specDedup (l : List String) : List String :=
  specDedupGo [] l

/-- The dropped-duplicate count `main` reports:
`original_count - deduped_count`. -/
def reportedDroppedCount (l : List String) : Nat :=
  l.length - (pyDedup l).length

/-- The argparse namespace of `show_cli/main.py::main`: every destination
defaults to `None` on the command line (including the `store_true` flags,
declared with `default=None`).  `threads` is an `int` when present,
`manual`/`combine` are booleans, the rest are strings. -/
structure CliNamespace where
  config : Option String
  user : Option String
  ip_file : Option String
  manual : Option Bool
  cmds : Option String
  cmd_file : Option String
  output_dir : Option String
  combine : Option Bool
  threads : Option Int
  log_level : Option String
deriving Repr, DecidableEq

/-- `TRUE_VALUES` from `show_cli/main.py`. -/
def TRUE_VALUES : List String := ["1", "true", "t", "yes", "y", "on"]

/-- `FALSE_VALUES` from `show_cli/main.py`. -/
def FALSE_VALUES : List String := ["0", "false", "f", "no", "n", "off"]

/-- `show_cli/main.py::parse_bool` restricted to string input (the merge
always passes a string).  The Python error message contains quote
characters that are elided here; no claim depends on the message text. -/
def parse_bool (value : String) : Except String Bool :=
  let candidate := pyLower (pyStrip value)
  if candidate ∈ TRUE_VALUES then .ok true
  else if candidate ∈ FALSE_VALUES then .ok false
  else .error ("Tidak dapat mengonversi " ++ value ++ " menjadi boolean.")

/-- No two consecutive underscore characters. -/
def noDoubleUnderscore : List Char → Bool
  | '_' :: '_' :: _ => false
  | _ :: rest => noDoubleUnderscore rest
  | [] => true

/-- Validity of the digit body of a Python decimal int literal: non-empty,
only ASCII digits and single underscores strictly between digits. -/
def validDigitBody (cs : List Char) : Bool :=
  !cs.isEmpty &&
  cs.all (fun c => c.isDigit || c = '_') &&
  (match cs.head? with
   | some c => c.isDigit
   | none => false) &&
  (match cs.getLast? with
   | some c => c.isDigit
   | none => false) &&
  noDoubleUnderscore cs

/-- Numeric value of a digit body, ignoring the underscores. -/
def digitsVal (cs : List Char) : Nat :=
  (cs.filter (fun c => c.isDigit)).foldl
    (fun acc c => 10 * acc + (c.toNat - '0'.toNat)) 0

/-- Model of Python `int(s)` on ASCII decimal strings: optional surrounding
whitespace, an optional sign, then digits with optional single underscores
between digits. -/
def pyInt (s : String) : Except String Int :=
  let cs := (pyStrip s).toList
  let signed : Bool × List Char :=
    match cs with
    | '+' :: rest => (false, rest)
    | '-' :: rest => (true, rest)
    | _ => (false, cs)
  if validDigitBody signed.2 then
    .ok (if signed.1 then -(digitsVal signed.2 : Int) else (digitsVal signed.2 : Int))
  else
    .error ("invalid literal for int() with base 10: " ++ s)

/-- `nullable_fields` from `merge_args_with_config`. -/
def nullable_fields : List String :=
  ["user", "ip_file", "cmds", "cmd_file", "output_dir"]

/-- The attribute names present in the argparse namespace. -/
def namespaceAttrs : List String :=
  ["config", "user", "ip_file", "manual", "cmds", "cmd_file", "output_dir",
   "combine", "threads", "log_level"]

/-- The merge error message for a caster failure; the Python original is
`f"Konfigurasi tidak valid untuk '{attr}': {value}"` (quote characters
elided; no claim depends on the message text). -/
def mergeError (attr value : String) : String :=
  "Konfigurasi tidak valid untuk " ++ attr ++ ": " ++ value

/-- The loop body of `merge_args_with_config` for `attr = "user"`: skip if
already set from the command line, skip a blank value (nullable field),
otherwise fill with the stripped value (caster `str`). -/
def mergeUser (ns : CliNamespace) (sanitized : String) : CliNamespace :=
  if ns.user.isSome then ns
  else if sanitized = "" then ns
  else { ns with user := some sanitized }

/-- The loop body for `attr = "ip_file"` (nullable string field). -/
def mergeIpFile (ns : CliNamespace) (sanitized : String) : CliNamespace :=
  if ns.ip_file.isSome then ns
  else if sanitized = "" then ns
  else { ns with ip_file := some sanitized }

/-- The loop body for `attr = "cmds"` (nullable string field). -/
def mergeCmds (ns : CliNamespace) (sanitized : String) : CliNamespace :=
  if ns.cmds.isSome then ns
  else if sanitized = "" then ns
  else { ns with cmds := some sanitized }

/-- The loop body for `attr = "cmd_file"` (nullable string field). -/
def mergeCmdFile (ns : CliNamespace) (sanitized : String) : CliNamespace :=
  if ns.cmd_file.isSome then ns
  else if sanitized = "" then ns
  else { ns with cmd_file := some sanitized }

/-- The loop body for `attr = "output_dir"` (nullable string field). -/
def mergeOutputDir (ns : CliNamespace) (sanitized : String) : CliNamespace :=
  if ns.output_dir.isSome then ns
  else if sanitized = "" then ns
  else { ns with output_dir := some sanitized }

/-- The loop body for `attr = "log_level"` (caster `str`, not nullable: a
blank value is applied, not skipped). -/
def mergeLogLevel (ns : CliNamespace) (sanitized : String) : CliNamespace :=
  if ns.log_level.isSome then ns
  else { ns with log_level := some sanitized }

/-- The loop body for `attr = "manual"` (caster `parse_bool`; a caster
failure raises the merge error). -/
def mergeManual (ns : CliNamespace) (sanitized value : String) :
    Except String CliNamespace :=
  if ns.manual.isSome then .ok ns
  else
    match parse_bool sanitized with
    | .ok b => .ok { ns with manual := some b }
    | .error _ => .error (mergeError "manual" value)

/-- The loop body for `attr = "combine"` (caster `parse_bool`). -/
def mergeCombine (ns : CliNamespace) (sanitized value : String) :
    Except String CliNamespace :=
  if ns.combine.isSome then .ok ns
  else
    match parse_bool sanitized with
    | .ok b => .ok { ns with combine := some b }
    | .error _ => .error (mergeError "combine" value)

/-- The loop body for `attr = "threads"` (caster `int`). -/
def mergeThreads (ns : CliNamespace) (sanitized value : String) :
    Except String CliNamespace :=
  if ns.threads.isSome then .ok ns
  else
    match pyInt sanitized with
    | .ok n => .ok { ns with threads := some n }
    | .error _ => .error (mergeError "threads" value)

/-- One iteration of the `for key, value in config.items()` loop of
`merge_args_with_config`: skip the `config` key and unknown keys, strip the
value, and dispatch to the per-attribute body (which skips attributes
already set on the namespace, skips blank values for nullable fields, and
applies the field's caster). -/
def mergeStep (ns : CliNamespace) (key value : String) :
    Except String CliNamespace :=
  let attr := replaceDashUnderscore key
  let sanitized := pyStrip value
  if attr = "config" then .ok ns
  else if attr = "user" then .ok (mergeUser ns sanitized)
  else if attr = "ip_file" then .ok (mergeIpFile ns sanitized)
  else if attr = "manual" then mergeManual ns sanitized value
  else if attr = "cmds" then .ok (mergeCmds ns sanitized)
  else if attr = "cmd_file" then .ok (mergeCmdFile ns sanitized)
  else if attr = "output_dir" then .ok (mergeOutputDir ns sanitized)
  else if attr = "combine" then mergeCombine ns sanitized value
  else if attr = "threads" then mergeThreads ns sanitized value
  else if attr = "log_level" then .ok (mergeLogLevel ns sanitized)
  else .ok ns

/-- `show_cli/main.py::merge_args_with_config`: fold the merge step over
the config entries (a Python dict preserves insertion order); an empty
config returns the namespace unchanged. -/
def merge_args_with_config (args : CliNamespace)
    (config : List (String × String)) : Except String CliNamespace :=
  if config.isEmpty then .ok args
  else config.foldlM (fun ns kv => mergeStep ns kv.1 kv.2) args

/-- Witness fixture: the spec's concrete scenario transport. `10.0.0.1`
connects and reports prompt `R1#`; every other address fails to connect
with cause `timeout`. -/
def netW : String → DeviceBehavior := fun ip =>
  if ip = "10.0.0.1" then
    .connected
      { enableError := none, prompt := "R1#",
        send := fun _ => .ok "Cisco IOS Software" }
  else .connectFail "timeout"

/-- Witness fixture: a transport where every address fails. -/
def netAllFail : String → DeviceBehavior := fun ip =>
  .connectFail ("no route to " ++ ip)

/-- Witness fixture: a session whose reported prompt has both a leading and
a trailing delimiter. -/
def sessW : SessionBehavior :=
  { enableError := none, prompt := "#R1#", send := fun _ => .ok "out" }

/-- Witness fixture: a device whose reported prompt has both a leading and
a trailing delimiter. -/
def promptDevW : DeviceBehavior := .connected sessW

/-- Witness fixture: an empty output directory. -/
def fsEmpty : FileSystem := fun _ => none

/-- Witness fixture: a local filesystem on which every per-device file
opens and writes successfully. -/
def writeOkW : String → Option String := fun _ => none

/-- Counterexample fixture: a device whose reported prompt contains a path
separator, so the derived per-device file name is an invalid path. -/
def slashDevW : DeviceBehavior :=
  .connected
    { enableError := none, prompt := "R1/SW#", send := fun _ => .ok "out" }

/-- Counterexample fixture: a local filesystem on which opening the invalid
path derived from the slash prompt raises OSError. -/
def writeFailW : String → Option String := fun name =>
  if name = "R1/SW_10_0_0_1.txt" then some "No such file or directory"
  else none

/-- Witness fixture: a namespace with `user` set on the command line and
everything else unset. -/
def argsW : CliNamespace :=
  { config := some "config.ini", user := some "cli-user", ip_file := none,
    manual := none, cmds := none, cmd_file := none, output_dir := none,
    combine := none, threads := none, log_level := none }

/-- Witness fixture: a config mapping that tries to override `user`, fills
`threads` and `combine`, has a blank `ip-file`, and carries an unknown key. -/
def configW : List (String × String) :=
  [("user", "admin"), ("threads", " 3 "), ("combine", "true"),
   ("ip-file", "   "), ("password", "hunter2")]

/-- Witness fixture: the namespace `merge_args_with_config` produces from
`argsW` and `configW`: the command-line `user` survives, `threads` and
`combine` are filled from the config, the blank `ip-file` and the unknown
`password` key are ignored. -/
def nsW : CliNamespace :=
  { config := some "config.ini", user := some "cli-user", ip_file := none,
    manual := none, cmds := none, cmd_file := none, output_dir := none,
    combine := some true, threads := some 3, log_level := none }

/-- Non-None preservation between two namespaces: every field that carries
a value in `a` carries the same value in `b`, and the `config` field is
untouched. -/
def NsPreserved (a b : CliNamespace) : Prop :=
  b.config = a.config ∧
  (∀ v, a.user = some v → b.user = some v) ∧
  (∀ v, a.ip_file = some v → b.ip_file = some v) ∧
  (∀ v, a.manual = some v → b.manual = some v) ∧
  (∀ v, a.cmds = some v → b.cmds = some v) ∧
  (∀ v, a.cmd_file = some v → b.cmd_file = some v) ∧
  (∀ v, a.output_dir = some v → b.output_dir = some v) ∧
  (∀ v, a.combine = some v → b.combine = some v) ∧
  (∀ v, a.threads = some v → b.threads = some v) ∧
  (∀ v, a.log_level = some v → b.log_level = some v)

theorem length_concatAll (l : List String) :
    (concatAll l).length = (l.map String.length).sum := by
  induction l with
  | nil => rfl
  | cons s rest ih => simp [concatAll, ih]

theorem fsWrites_apply (ws : List (String × String)) (fs : FileSystem)
    (n : String) : fsWrites fs ws n = orOpt (lastWrite ws n) (fs n) := by
  induction ws generalizing fs with
  | nil => rfl
  | cons w rest ih =>
    obtain ⟨m, c⟩ := w
    simp only [fsWrites, lastWrite]
    rw [ih]
    cases h : lastWrite rest n with
    | some d => simp [orOpt]
    | none =>
      simp only [orOpt, fsWrite]
      by_cases hmn : m = n
      · subst hmn; simp
      · simp [hmn, Ne.symm hmn]

theorem lastWrite_append (w1 w2 : List (String × String)) (n : String) :
    lastWrite (w1 ++ w2) n = orOpt (lastWrite w2 n) (lastWrite w1 n) := by
  induction w1 with
  | nil => cases h : lastWrite w2 n <;> simp [lastWrite, orOpt, h]
  | cons w rest ih =>
    obtain ⟨m, c⟩ := w
    simp only [List.cons_append, lastWrite, List.append_eq]
    rw [ih]
    cases h2 : lastWrite w2 n with
    | some d => simp [orOpt]
    | none => cases h1 : lastWrite rest n <;> simp [orOpt, h1]

theorem runTasks_results (net : String → DeviceBehavior)
    (writeFail : String → Option String)
    (username password enable : String) (commands : List String)
    (combine_output : Bool) (order : List String) :
    (runTasks net writeFail username password enable commands combine_output order).1 =
      order.map (fun ip =>
        (connect_and_run_single (net ip) writeFail ip username password enable commands
          combine_output).1) := by
  induction order with
  | nil => rfl
  | cons ip rest ih => simp [runTasks, ih]

theorem single_combine_writes (b : DeviceBehavior) (writeFail : String → Option String)
    (ip username password enable : String) (commands : List String) :
    (connect_and_run_single b writeFail ip username password enable commands true).2
      = [] := by
  cases b with
  | connectFail c => rfl
  | connected sess =>
    cases h : sess.enableError with
    | some c => simp [connect_and_run_single, h]
    | none =>
      cases hr : runCommands sess (pyStripHash sess.prompt) ip commands with
      | error c => simp [connect_and_run_single, h, hr]
      | ok frags => simp [connect_and_run_single, h, hr]

theorem runTasks_writes_combine (net : String → DeviceBehavior)
    (writeFail : String → Option String)
    (username password enable : String) (commands : List String)
    (order : List String) :
    (runTasks net writeFail username password enable commands true order).2 = [] := by
  induction order with
  | nil => rfl
  | cons ip rest ih => simp [runTasks, single_combine_writes, ih]

theorem runCommands_error_of_firstSendFailure (sess : SessionBehavior)
    (hst ip : String) (cmds : List String) (cause : String)
    (hf : firstSendFailure sess cmds = some cause) :
    runCommands sess hst ip cmds = .error cause := by
  induction cmds with
  | nil => simp [firstSendFailure] at hf
  | cons cmd rest ih =>
    simp only [firstSendFailure] at hf
    cases hs : sess.send cmd with
    | error c =>
      rw [hs] at hf
      simp only [Option.some.injEq] at hf
      simp [runCommands, hs, hf]
    | ok o =>
      rw [hs] at hf
      simp [runCommands, hs, ih hf]

theorem runCommands_ok_of_sendAll (sess : SessionBehavior) (hst ip : String) :
    ∀ (cmds outs : List String), sendAll sess cmds = .ok outs →
    runCommands sess hst ip cmds =
      .ok (List.zipWith (fun cmd out => fragment hst ip cmd out) cmds outs) := by
  intro cmds
  induction cmds with
  | nil =>
    intro outs ho
    simp only [sendAll, Except.ok.injEq] at ho
    subst ho
    rfl
  | cons cmd rest ih =>
    intro outs ho
    simp only [sendAll] at ho
    cases hs : sess.send cmd with
    | error c => rw [hs] at ho; exact absurd ho (by simp)
    | ok o =>
      rw [hs] at ho
      cases hrest : sendAll sess rest with
      | error c => rw [hrest] at ho; exact absurd ho (by simp)
      | ok os =>
        rw [hrest] at ho
        simp only [Except.ok.injEq] at ho
        subst ho
        simp [runCommands, hs, ih os hrest]

theorem specDedupGo_congr (l : List String) :
    ∀ seen seen', (∀ y, y ∈ seen ↔ y ∈ seen') →
    specDedupGo seen l = specDedupGo seen' l := by
  induction l with
  | nil => intro _ _ _; rfl
  | cons x rest ih =>
    intro seen seen' hss
    simp only [specDedupGo]
    by_cases hx : x ∈ seen
    · rw [if_pos hx, if_pos ((hss x).mp hx)]
      exact ih seen seen' hss
    · rw [if_neg hx, if_neg (fun hc => hx ((hss x).mpr hc))]
      congr 1
      apply ih
      intro y
      simp [List.mem_cons, hss y]

theorem pyDedup_foldl_spec (l : List String) :
    ∀ acc : List String,
      l.foldl (fun acc x => if x ∈ acc then acc else acc ++ [x]) acc =
        acc ++ specDedupGo acc l := by
  induction l with
  | nil => intro acc; simp [specDedupGo]
  | cons x rest ih =>
    intro acc
    simp only [List.foldl_cons, specDedupGo]
    by_cases hx : x ∈ acc
    · rw [if_pos hx, if_pos hx, ih]
    · rw [if_neg hx, if_neg hx, ih]
      rw [specDedupGo_congr rest (acc ++ [x]) (x :: acc)
        (by intro y; simp [List.mem_append, List.mem_cons]; tauto)]
      simp

theorem pyDedup_eq_specDedup (l : List String) : pyDedup l = specDedup l := by
  unfold pyDedup specDedup
  rw [pyDedup_foldl_spec]
  simp

theorem specDedupGo_nodup_disjoint (l : List String) :
    ∀ seen, (specDedupGo seen l).Nodup ∧
      ∀ y ∈ specDedupGo seen l, y ∉ seen := by
  induction l with
  | nil => intro seen; simp [specDedupGo]
  | cons x rest ih =>
    intro seen
    simp only [specDedupGo]
    by_cases hx : x ∈ seen
    · rw [if_pos hx]; exact ih seen
    · rw [if_neg hx]
      obtain ⟨hnd, hdisj⟩ := ih (x :: seen)
      refine ⟨List.nodup_cons.mpr ⟨fun hmem => (hdisj x hmem) (List.mem_cons_self x seen), hnd⟩, ?_⟩
      intro y hy
      rcases List.mem_cons.mp hy with h1 | h2
      · subst h1; exact hx
      · intro hys; exact hdisj y h2 (List.mem_cons_of_mem x hys)

theorem specDedupGo_sublist (l : List String) :
    ∀ seen, (specDedupGo seen l).Sublist l := by
  induction l with
  | nil => intro _; simp [specDedupGo]
  | cons x rest ih =>
    intro seen
    simp only [specDedupGo]
    by_cases hx : x ∈ seen
    · rw [if_pos hx]
      exact (ih seen).trans (List.sublist_cons_self x rest)
    · rw [if_neg hx]
      exact (ih (x :: seen)).cons₂ x

theorem mem_specDedupGo (l : List String) :
    ∀ seen y, y ∈ specDedupGo seen l ↔ (y ∈ l ∧ y ∉ seen) := by
  induction l with
  | nil => intro seen y; simp [specDedupGo]
  | cons x rest ih =>
    intro seen y
    simp only [specDedupGo]
    by_cases hx : x ∈ seen
    · rw [if_pos hx, ih]
      simp only [List.mem_cons]
      constructor
      · rintro ⟨hy, hys⟩; exact ⟨Or.inr hy, hys⟩
      · rintro ⟨hy | hy, hys⟩
        · subst hy; exact absurd hx hys
        · exact ⟨hy, hys⟩
    · rw [if_neg hx]
      simp only [List.mem_cons, ih]
      constructor
      · rintro (hy | ⟨hy, hys⟩)
        · subst hy; exact ⟨Or.inl rfl, hx⟩
        · exact ⟨Or.inr hy, fun hc => hys (Or.inr hc)⟩
      · rintro ⟨hy | hy, hys⟩
        · subst hy; exact Or.inl rfl
        · by_cases hyx : y = x
          · exact Or.inl hyx
          · refine Or.inr ⟨hy, ?_⟩
            rintro (h1 | h2)
            · exact hyx h1
            · exact hys h2

theorem nsPreserved_refl (a : CliNamespace) : NsPreserved a a := by
  unfold NsPreserved
  exact ⟨rfl, fun _ h => h, fun _ h => h, fun _ h => h, fun _ h => h,
    fun _ h => h, fun _ h => h, fun _ h => h, fun _ h => h, fun _ h => h⟩

theorem nsPreserved_trans {a b c : CliNamespace}
    (hab : NsPreserved a b) (hbc : NsPreserved b c) : NsPreserved a c := by
  obtain ⟨h0, h1, h2, h3, h4, h5, h6, h7, h8, h9⟩ := hab
  obtain ⟨g0, g1, g2, g3, g4, g5, g6, g7, g8, g9⟩ := hbc
  exact ⟨h0 ▸ g0, fun v h => g1 v (h1 v h), fun v h => g2 v (h2 v h),
    fun v h => g3 v (h3 v h), fun v h => g4 v (h4 v h),
    fun v h => g5 v (h5 v h), fun v h => g6 v (h6 v h),
    fun v h => g7 v (h7 v h), fun v h => g8 v (h8 v h),
    fun v h => g9 v (h9 v h)⟩

theorem preserved_update_user (ns : CliNamespace) (x : Option String)
    (h : ¬ns.user.isSome = true) : NsPreserved ns { ns with user := x } := by
  unfold NsPreserved
  refine ⟨rfl, ?_, fun _ hv => hv, fun _ hv => hv, fun _ hv => hv,
    fun _ hv => hv, fun _ hv => hv, fun _ hv => hv, fun _ hv => hv,
    fun _ hv => hv⟩
  intro v hv
  rw [hv] at h
  exact absurd rfl h

theorem preserved_update_ip_file (ns : CliNamespace) (x : Option String)
    (h : ¬ns.ip_file.isSome = true) : NsPreserved ns { ns with ip_file := x } := by
  unfold NsPreserved
  refine ⟨rfl, fun _ hv => hv, ?_, fun _ hv => hv, fun _ hv => hv,
    fun _ hv => hv, fun _ hv => hv, fun _ hv => hv, fun _ hv => hv,
    fun _ hv => hv⟩
  intro v hv
  rw [hv] at h
  exact absurd rfl h

theorem preserved_update_manual (ns : CliNamespace) (x : Option Bool)
    (h : ¬ns.manual.isSome = true) : NsPreserved ns { ns with manual := x } := by
  unfold NsPreserved
  refine ⟨rfl, fun _ hv => hv, fun _ hv => hv, ?_, fun _ hv => hv,
    fun _ hv => hv, fun _ hv => hv, fun _ hv => hv, fun _ hv => hv,
    fun _ hv => hv⟩
  intro v hv
  rw [hv] at h
  exact absurd rfl h

theorem preserved_update_cmds (ns : CliNamespace) (x : Option String)
    (h : ¬ns.cmds.isSome = true) : NsPreserved ns { ns with cmds := x } := by
  unfold NsPreserved
  refine ⟨rfl, fun _ hv => hv, fun _ hv => hv, fun _ hv => hv, ?_,
    fun _ hv => hv, fun _ hv => hv, fun _ hv => hv, fun _ hv => hv,
    fun _ hv => hv⟩
  intro v hv
  rw [hv] at h
  exact absurd rfl h

theorem preserved_update_cmd_file (ns : CliNamespace) (x : Option String)
    (h : ¬ns.cmd_file.isSome = true) :
    NsPreserved ns { ns with cmd_file := x } := by
  unfold NsPreserved
  refine ⟨rfl, fun _ hv => hv, fun _ hv => hv, fun _ hv => hv,
    fun _ hv => hv, ?_, fun _ hv => hv, fun _ hv => hv, fun _ hv => hv,
    fun _ hv => hv⟩
  intro v hv
  rw [hv] at h
  exact absurd rfl h

theorem preserved_update_output_dir (ns : CliNamespace) (x : Option String)
    (h : ¬ns.output_dir.isSome = true) :
    NsPreserved ns { ns with output_dir := x } := by
  unfold NsPreserved
  refine ⟨rfl, fun _ hv => hv, fun _ hv => hv, fun _ hv => hv,
    fun _ hv => hv, fun _ hv => hv, ?_, fun _ hv => hv, fun _ hv => hv,
    fun _ hv => hv⟩
  intro v hv
  rw [hv] at h
  exact absurd rfl h

theorem preserved_update_combine (ns : CliNamespace) (x : Option Bool)
    (h : ¬ns.combine.isSome = true) :
    NsPreserved ns { ns with combine := x } := by
  unfold NsPreserved
  refine ⟨rfl, fun _ hv => hv, fun _ hv => hv, fun _ hv => hv,
    fun _ hv => hv, fun _ hv => hv, fun _ hv => hv, ?_, fun _ hv => hv,
    fun _ hv => hv⟩
  intro v hv
  rw [hv] at h
  exact absurd rfl h

theorem preserved_update_threads (ns : CliNamespace) (x : Option Int)
    (h : ¬ns.threads.isSome = true) :
    NsPreserved ns { ns with threads := x } := by
  unfold NsPreserved
  refine ⟨rfl, fun _ hv => hv, fun _ hv => hv, fun _ hv => hv,
    fun _ hv => hv, fun _ hv => hv, fun _ hv => hv, fun _ hv => hv, ?_,
    fun _ hv => hv⟩
  intro v hv
  rw [hv] at h
  exact absurd rfl h

theorem preserved_update_log_level (ns : CliNamespace) (x : Option String)
    (h : ¬ns.log_level.isSome = true) :
    NsPreserved ns { ns with log_level := x } := by
  unfold NsPreserved
  refine ⟨rfl, fun _ hv => hv, fun _ hv => hv, fun _ hv => hv,
    fun _ hv => hv, fun _ hv => hv, fun _ hv => hv, fun _ hv => hv,
    fun _ hv => hv, ?_⟩
  intro v hv
  rw [hv] at h
  exact absurd rfl h

theorem mergeUser_preserves (ns : CliNamespace) (s : String) :
    NsPreserved ns (mergeUser ns s) := by
  unfold mergeUser
  split
  · exact nsPreserved_refl ns
  · split
    · exact nsPreserved_refl ns
    · exact preserved_update_user ns _ (by assumption)

theorem mergeIpFile_preserves (ns : CliNamespace) (s : String) :
    NsPreserved ns (mergeIpFile ns s) := by
  unfold mergeIpFile
  split
  · exact nsPreserved_refl ns
  · split
    · exact nsPreserved_refl ns
    · exact preserved_update_ip_file ns _ (by assumption)

theorem mergeCmds_preserves (ns : CliNamespace) (s : String) :
    NsPreserved ns (mergeCmds ns s) := by
  unfold mergeCmds
  split
  · exact nsPreserved_refl ns
  · split
    · exact nsPreserved_refl ns
    · exact preserved_update_cmds ns _ (by assumption)

theorem mergeCmdFile_preserves (ns : CliNamespace) (s : String) :
    NsPreserved ns (mergeCmdFile ns s) := by
  unfold mergeCmdFile
  split
  · exact nsPreserved_refl ns
  · split
    · exact nsPreserved_refl ns
    · exact preserved_update_cmd_file ns _ (by assumption)

theorem mergeOutputDir_preserves (ns : CliNamespace) (s : String) :
    NsPreserved ns (mergeOutputDir ns s) := by
  unfold mergeOutputDir
  split
  · exact nsPreserved_refl ns
  · split
    · exact nsPreserved_refl ns
    · exact preserved_update_output_dir ns _ (by assumption)

theorem mergeLogLevel_preserves (ns : CliNamespace) (s : String) :
    NsPreserved ns (mergeLogLevel ns s) := by
  unfold mergeLogLevel
  split
  · exact nsPreserved_refl ns
  · exact preserved_update_log_level ns _ (by assumption)

theorem mergeManual_preserves (ns ns' : CliNamespace) (s v : String)
    (h : mergeManual ns s v = .ok ns') : NsPreserved ns ns' := by
  unfold mergeManual at h
  split at h
  · simp only [Except.ok.injEq] at h; subst h; exact nsPreserved_refl ns
  · split at h
    · simp only [Except.ok.injEq] at h
      subst h
      exact preserved_update_manual ns _ (by assumption)
    · exact absurd h (by simp)

theorem mergeCombine_preserves (ns ns' : CliNamespace) (s v : String)
    (h : mergeCombine ns s v = .ok ns') : NsPreserved ns ns' := by
  unfold mergeCombine at h
  split at h
  · simp only [Except.ok.injEq] at h; subst h; exact nsPreserved_refl ns
  · split at h
    · simp only [Except.ok.injEq] at h
      subst h
      exact preserved_update_combine ns _ (by assumption)
    · exact absurd h (by simp)

theorem mergeThreads_preserves (ns ns' : CliNamespace) (s v : String)
    (h : mergeThreads ns s v = .ok ns') : NsPreserved ns ns' := by
  unfold mergeThreads at h
  split at h
  · simp only [Except.ok.injEq] at h; subst h; exact nsPreserved_refl ns
  · split at h
    · simp only [Except.ok.injEq] at h
      subst h
      exact preserved_update_threads ns _ (by assumption)
    · exact absurd h (by simp)

theorem mergeStep_preserves (ns ns' : CliNamespace) (key value : String)
    (h : mergeStep ns key value = .ok ns') : NsPreserved ns ns' := by
  simp only [mergeStep] at h
  repeat' split at h
  all_goals try simp only [Except.ok.injEq] at h
  all_goals first
    | (subst h
       first
         | exact nsPreserved_refl ns
         | exact mergeUser_preserves ns _
         | exact mergeIpFile_preserves ns _
         | exact mergeCmds_preserves ns _
         | exact mergeCmdFile_preserves ns _
         | exact mergeOutputDir_preserves ns _
         | exact mergeLogLevel_preserves ns _)
    | exact mergeManual_preserves ns ns' _ _ h
    | exact mergeCombine_preserves ns ns' _ _ h
    | exact mergeThreads_preserves ns ns' _ _ h

theorem foldlM_mergeStep_preserves (config : List (String × String)) :
    ∀ args ns,
      config.foldlM (fun ns kv => mergeStep ns kv.1 kv.2) args = .ok ns →
      NsPreserved args ns := by
  induction config with
  | nil =>
    intro args ns h
    simp only [List.foldlM_nil] at h
    simp only [pure, Except.pure, Except.ok.injEq] at h
    subst h
    exact nsPreserved_refl args
  | cons kv rest ih =>
    intro args ns h
    simp only [List.foldlM_cons] at h
    cases hstep : mergeStep args kv.1 kv.2 with
    | error e =>
      rw [hstep] at h
      exact absurd h (by simp [Bind.bind, Except.bind])
    | ok mid =>
      rw [hstep] at h
      simp only [Bind.bind, Except.bind] at h
      exact nsPreserved_trans (mergeStep_preserves args mid kv.1 kv.2 hstep)
        (ih mid ns h)

theorem merge_preserves (args : CliNamespace)
    (config : List (String × String)) (ns : CliNamespace)
    (h : merge_args_with_config args config = .ok ns) :
    NsPreserved args ns := by
  unfold merge_args_with_config at h
  split at h
  · simp only [Except.ok.injEq] at h; subst h; exact nsPreserved_refl args
  · exact foldlM_mergeStep_preserves config args ns h

theorem mergeUser_blank (ns : CliNamespace) : mergeUser ns "" = ns := by
  unfold mergeUser
  split
  · rfl
  · rw [if_pos rfl]

theorem mergeIpFile_blank (ns : CliNamespace) : mergeIpFile ns "" = ns := by
  unfold mergeIpFile
  split
  · rfl
  · rw [if_pos rfl]

theorem mergeCmds_blank (ns : CliNamespace) : mergeCmds ns "" = ns := by
  unfold mergeCmds
  split
  · rfl
  · rw [if_pos rfl]

theorem mergeCmdFile_blank (ns : CliNamespace) : mergeCmdFile ns "" = ns := by
  unfold mergeCmdFile
  split
  · rfl
  · rw [if_pos rfl]

theorem mergeOutputDir_blank (ns : CliNamespace) :
    mergeOutputDir ns "" = ns := by
  unfold mergeOutputDir
  split
  · rfl
  · rw [if_pos rfl]

theorem mergeStep_config_skip (ns : CliNamespace) (value : String) :
    mergeStep ns "config" value = .ok ns := rfl

theorem mergeStep_unknown_skip (ns : CliNamespace) (key value : String)
    (hattr : replaceDashUnderscore key ∉ namespaceAttrs) :
    mergeStep ns key value = .ok ns := by
  simp only [namespaceAttrs, List.mem_cons, List.not_mem_nil, or_false,
    not_or] at hattr
  obtain ⟨h0, h1, h2, h3, h4, h5, h6, h7, h8, h9⟩ := hattr
  simp [mergeStep, h0, h1, h2, h3, h4, h5, h6, h7, h8, h9]

theorem mergeStep_blank_nullable (ns : CliNamespace) (key value : String)
    (hattr : replaceDashUnderscore key ∈ nullable_fields)
    (hblank : pyStrip value = "") : mergeStep ns key value = .ok ns := by
  simp only [nullable_fields, List.mem_cons, List.not_mem_nil,
    or_false] at hattr
  rcases hattr with h | h | h | h | h <;>
    simp [mergeStep, h, hblank, mergeUser_blank, mergeIpFile_blank,
      mergeCmds_blank, mergeCmdFile_blank, mergeOutputDir_blank]

theorem map_eq_nil_aux {α β : Type} (f : α → β) (l : List α) :
    l.map f = [] ↔ l = [] := by
  cases l <;> simp

theorem final_artifact_reads (net : String → DeviceBehavior)
    (writeFail : String → Option String)
    (username password enable : String) (commands : List String)
    (combine_output : Bool) (order : List String) (fs : FileSystem)
    (h : failedResults (connect_and_run net writeFail username password enable commands
      combine_output order).1 ≠ []) :
    fsWrites fs (connect_and_run net writeFail username password enable commands
        combine_output order).2 "connection_errors.txt"
      = some (joinLines (errorLog (connect_and_run net writeFail username password
          enable commands combine_output order).1)) ∧
    fsWrites fs (connect_and_run net writeFail username password enable commands
        combine_output order).2 "failed_ips.txt"
      = some (joinLines (failedIps (connect_and_run net writeFail username password
          enable commands combine_output order).1)) := by
  have hR : (connect_and_run net writeFail username password enable commands
      combine_output order).1
    = (runTasks net writeFail username password enable commands combine_output
        order).1 := rfl
  have hE : errorLog (runTasks net writeFail username password enable commands
      combine_output order).1 ≠ [] := by
    intro hc
    exact h (by rw [hR]; exact (map_eq_nil_aux _ _).mp hc)
  have hF : failedIps (runTasks net writeFail username password enable commands
      combine_output order).1 ≠ [] := by
    intro hc
    exact h (by rw [hR]; exact (map_eq_nil_aux _ _).mp hc)
  have haw : artifactWrites (runTasks net writeFail username password enable commands
      combine_output order).1 =
      [("connection_errors.txt", joinLines (errorLog (runTasks net writeFail username
          password enable commands combine_output order).1)),
       ("failed_ips.txt", joinLines (failedIps (runTasks net writeFail username
          password enable commands combine_output order).1))] := by
    unfold artifactWrites
    rw [if_neg hE, if_neg hF]
    rfl
  have hw : (connect_and_run net writeFail username password enable commands
      combine_output order).2 =
      ((runTasks net writeFail username password enable commands combine_output
          order).2 ++
        (if combine_output then
          [("combined_output.txt", combinedContent (runTasks net writeFail username
              password enable commands combine_output order).1)]
         else [])) ++
      artifactWrites (runTasks net writeFail username password enable commands
        combine_output order).1 := rfl
  rw [hR, hw, haw]
  constructor
  · rw [fsWrites_apply, lastWrite_append]
    rfl
  · rw [fsWrites_apply, lastWrite_append]
    rfl

theorem lastWrite_artifacts_combined (R : List TaskResult) :
    lastWrite (artifactWrites R) "combined_output.txt" = none := by
  unfold artifactWrites
  split <;> split <;> rfl

theorem single_fail_result (b : DeviceBehavior) (writeFail : String → Option String) (ip username password
    enable : String) (commands : List String) (combine_output : Bool)
    (cause : String) (hfail : firstFailure b commands = some cause) :
    (connect_and_run_single b writeFail ip username password enable commands
      combine_output).1 = failResult ip cause ∧
    (connect_and_run_single_v2 b writeFail ip username password enable commands
      combine_output).1 = failResultV2 ip cause := by
  cases b with
  | connectFail c =>
    simp only [firstFailure, Option.some.injEq] at hfail
    subst hfail
    exact ⟨rfl, rfl⟩
  | connected sess =>
    simp only [firstFailure] at hfail
    cases he : sess.enableError with
    | some c =>
      simp only [he, Option.some.injEq] at hfail
      subst hfail
      simp [connect_and_run_single, connect_and_run_single_v2, he]
    | none =>
      simp only [he] at hfail
      have hr := runCommands_error_of_firstSendFailure sess
        (pyStripHash sess.prompt) ip commands cause hfail
      simp [connect_and_run_single, connect_and_run_single_v2, he, hr]

/-- Claim C4 counterexample: the per-device file write sits inside the
try block AFTER the hostname and output keys are assigned, so a write
failure (here: a reported prompt containing a path separator makes the
derived file name an invalid path, and open raises) returns a TaskResult
with succeeded false, hostname populated and output non-empty, violating
the claimed shape invariant. -/
theorem c4_counterexample :
    (connect_and_run_single slashDevW writeFailW "10.0.0.1" "admin" "pw"
      "en" ["show version"] false).1.success = false ∧
    (connect_and_run_single slashDevW writeFailW "10.0.0.1" "admin" "pw"
      "en" ["show version"] false).1.hostname = some "R1/SW" ∧
    ¬((connect_and_run_single slashDevW writeFailW "10.0.0.1" "admin" "pw"
      "en" ["show version"] false).1.output = "") :=
  ⟨rfl, rfl, by decide⟩

/-- Claim C4 (amended): every TaskResult returned by connect_and_run_single
satisfies: the error field is non-empty only when succeeded is false and is
empty on success; on success the hostname is populated; when the failure is
a transport failure (connect, enable, or a command send - that is, the
failure occurred before the result fields were assigned) the hostname is
unpopulated and the output empty; and in combine mode (where the task
performs no per-device write) the full original invariant holds: hostname
populated only on success and output empty on failure.  The one exception,
forced by the counterexample, is a per-device write failure in non-combine
mode, which yields succeeded false with hostname populated and the
formatted output retained. -/
theorem c4_taskresult_shape (b : DeviceBehavior)
    (writeFail : String → Option String)
    (ip username password enable : String) (commands : List String)
    (combine_output : Bool) :
    ((connect_and_run_single b writeFail ip username password enable
        commands combine_output).1.error ≠ "" →
      (connect_and_run_single b writeFail ip username password enable
        commands combine_output).1.success = false) ∧
    ((connect_and_run_single b writeFail ip username password enable
        commands combine_output).1.success = true →
      (connect_and_run_single b writeFail ip username password enable
        commands combine_output).1.error = "") ∧
    ((connect_and_run_single b writeFail ip username password enable
        commands combine_output).1.success = true →
      (connect_and_run_single b writeFail ip username password enable
        commands combine_output).1.hostname.isSome = true) ∧
    (∀ cause, firstFailure b commands = some cause →
      (connect_and_run_single b writeFail ip username password enable
        commands combine_output).1.hostname = none ∧
      (connect_and_run_single b writeFail ip username password enable
        commands combine_output).1.output = "") ∧
    (combine_output = true →
      ((connect_and_run_single b writeFail ip username password enable
          commands combine_output).1.hostname.isSome = true →
        (connect_and_run_single b writeFail ip username password enable
          commands combine_output).1.success = true) ∧
      ((connect_and_run_single b writeFail ip username password enable
          commands combine_output).1.success = false →
        (connect_and_run_single b writeFail ip username password enable
          commands combine_output).1.output = "")) := by
  have h4 : ∀ cause, firstFailure b commands = some cause →
      (connect_and_run_single b writeFail ip username password enable
        commands combine_output).1.hostname = none ∧
      (connect_and_run_single b writeFail ip username password enable
        commands combine_output).1.output = "" := by
    intro cause hfail
    rw [(single_fail_result b writeFail ip username password enable commands
      combine_output cause hfail).1]
    exact ⟨rfl, rfl⟩
  refine ⟨?_, ?_, ?_, h4, ?_⟩
  all_goals
    cases b with
    | connectFail c => simp [connect_and_run_single, failResult]
    | connected sess =>
      cases he : sess.enableError with
      | some c => simp [connect_and_run_single, he, failResult]
      | none =>
        cases hr : runCommands sess (pyStripHash sess.prompt) ip commands
          with
        | error c => simp [connect_and_run_single, he, hr, failResult]
        | ok frags =>
          cases combine_output with
          | true => simp [connect_and_run_single, he, hr]
          | false =>
            cases hw : writeFail (pyStripHash sess.prompt ++ "_" ++
                replaceDots ip ++ ".txt") with
            | some cause => simp [connect_and_run_single, he, hr, hw]
            | none => simp [connect_and_run_single, he, hr, hw]

/-- Witness for the amended C4 at the counterexample device, where the
write-failure path is actually taken. -/
theorem c4_taskresult_shape_witness :
    ((connect_and_run_single slashDevW writeFailW "10.0.0.1" "admin" "pw"
        "en" ["show version"] false).1.error ≠ "" →
      (connect_and_run_single slashDevW writeFailW "10.0.0.1" "admin" "pw"
        "en" ["show version"] false).1.success = false) ∧
    ((connect_and_run_single slashDevW writeFailW "10.0.0.1" "admin" "pw"
        "en" ["show version"] false).1.success = true →
      (connect_and_run_single slashDevW writeFailW "10.0.0.1" "admin" "pw"
        "en" ["show version"] false).1.error = "") ∧
    ((connect_and_run_single slashDevW writeFailW "10.0.0.1" "admin" "pw"
        "en" ["show version"] false).1.success = true →
      (connect_and_run_single slashDevW writeFailW "10.0.0.1" "admin" "pw"
        "en" ["show version"] false).1.hostname.isSome = true) ∧
    (∀ cause, firstFailure slashDevW ["show version"] = some cause →
      (connect_and_run_single slashDevW writeFailW "10.0.0.1" "admin" "pw"
        "en" ["show version"] false).1.hostname = none ∧
      (connect_and_run_single slashDevW writeFailW "10.0.0.1" "admin" "pw"
        "en" ["show version"] false).1.output = "") ∧
    (false = true →
      ((connect_and_run_single slashDevW writeFailW "10.0.0.1" "admin" "pw"
          "en" ["show version"] false).1.hostname.isSome = true →
        (connect_and_run_single slashDevW writeFailW "10.0.0.1" "admin"
          "pw" "en" ["show version"] false).1.success = true) ∧
      ((connect_and_run_single slashDevW writeFailW "10.0.0.1" "admin" "pw"
          "en" ["show version"] false).1.success = false →
        (connect_and_run_single slashDevW writeFailW "10.0.0.1" "admin"
          "pw" "en" ["show version"] false).1.output = "")) :=
  c4_taskresult_shape slashDevW writeFailW "10.0.0.1" "admin" "pw" "en"
    ["show version"] false

/-- Claim C8: in non-combine mode every successful task writes exactly one
file, deterministically named hostname, underscore, the target with dots
replaced by underscores, and a txt suffix, containing the task's full
output string; a failed task writes no per-device file. -/
theorem c8_per_device_file (b : DeviceBehavior) (writeFail : String → Option String)
    (ip username password enable : String) (commands : List String) :
    ((connect_and_run_single b writeFail ip username password enable commands
        false).1.success = true →
      ∃ host,
        (connect_and_run_single b writeFail ip username password enable commands
          false).1.hostname = some host ∧
        (connect_and_run_single b writeFail ip username password enable commands
          false).2 =
          [(host ++ "_" ++ replaceDots ip ++ ".txt",
            (connect_and_run_single b writeFail ip username password enable commands
              false).1.output)]) ∧
    ((connect_and_run_single b writeFail ip username password enable commands
        false).1.success = false →
      (connect_and_run_single b writeFail ip username password enable commands
        false).2 = []) := by
  cases b with
  | connectFail c => simp [connect_and_run_single, failResult]
  | connected sess =>
    cases he : sess.enableError with
    | some c => simp [connect_and_run_single, he, failResult]
    | none =>
      cases hr : runCommands sess (pyStripHash sess.prompt) ip commands with
      | error c => simp [connect_and_run_single, he, hr, failResult]
      | ok frags =>
        cases hw : writeFail (pyStripHash sess.prompt ++ "_" ++
            replaceDots ip ++ ".txt") with
        | some cause =>
          refine ⟨fun htrue => absurd htrue ?_, fun _ => ?_⟩
          · simp [connect_and_run_single, he, hr, hw]
          · simp [connect_and_run_single, he, hr, hw]
        | none =>
          refine ⟨fun _ => ⟨pyStripHash sess.prompt, ?_, ?_⟩,
            fun hfalse => absurd hfalse ?_⟩
          · simp [connect_and_run_single, he, hr, hw]
          · simp [connect_and_run_single, he, hr, hw]
          · simp [connect_and_run_single, he, hr, hw]

/-- Witness for C8: the per-device file write evaluated at a concrete
successful device. -/
theorem c8_per_device_file_witness :
    ((connect_and_run_single (netW "10.0.0.1") writeOkW "10.0.0.1" "admin" "pw" "en"
        ["show version"] false).1.success = true →
      ∃ host,
        (connect_and_run_single (netW "10.0.0.1") writeOkW "10.0.0.1" "admin" "pw"
          "en" ["show version"] false).1.hostname = some host ∧
        (connect_and_run_single (netW "10.0.0.1") writeOkW "10.0.0.1" "admin" "pw"
          "en" ["show version"] false).2 =
          [(host ++ "_" ++ replaceDots "10.0.0.1" ++ ".txt",
            (connect_and_run_single (netW "10.0.0.1") writeOkW "10.0.0.1" "admin"
              "pw" "en" ["show version"] false).1.output)]) ∧
    ((connect_and_run_single (netW "10.0.0.1") writeOkW "10.0.0.1" "admin" "pw" "en"
        ["show version"] false).1.success = false →
      (connect_and_run_single (netW "10.0.0.1") writeOkW "10.0.0.1" "admin" "pw" "en"
        ["show version"] false).2 = []) :=
  c8_per_device_file (netW "10.0.0.1") writeOkW "10.0.0.1" "admin" "pw" "en"
    ["show version"]

/-- Claim C9: running non-combine mode twice with identical inputs yields
an identical output directory: each write truncates and overwrites the file
of the same derived name, so nothing accumulates across reruns. -/
theorem c9_nonCombine_rerun_idempotent (net : String → DeviceBehavior)
    (writeFail : String → Option String)
    (username password enable : String) (commands : List String)
    (order : List String) (fs : FileSystem) :
    fsWrites
      (fsWrites fs (connect_and_run net writeFail username password enable commands
        false order).2)
      (connect_and_run net writeFail username password enable commands false order).2
    = fsWrites fs (connect_and_run net writeFail username password enable commands
        false order).2 := by
  funext n
  rw [fsWrites_apply, fsWrites_apply]
  cases h : lastWrite (connect_and_run net writeFail username password enable commands
      false order).2 n <;> simp [orOpt, h]

/-- Claim C6: the deduplication step of main (list of dict.fromkeys) has no
duplicate entries under exact string equality, preserves first-occurrence
order (it equals the spec-side keep-first-occurrence filter and is a
sublist of the input), keeps exactly the members of the input, and the
reported dropped-duplicate count equals originalCount minus dedupedCount. -/
theorem c6_dedup_first_occurrence (l : List String) :
    pyDedup l = specDedup l ∧
    (pyDedup l).Nodup ∧
    (pyDedup l).Sublist l ∧
    (∀ x, x ∈ pyDedup l ↔ x ∈ l) ∧
    reportedDroppedCount l = l.length - (pyDedup l).length := by
  have he := pyDedup_eq_specDedup l
  refine ⟨he, ?_, ?_, ?_, rfl⟩
  · rw [he]; exact (specDedupGo_nodup_disjoint l []).1
  · rw [he]; exact specDedupGo_sublist l []
  · intro x
    rw [he]
    unfold specDedup
    rw [mem_specDedupGo]
    simp

/-- Claim C3: in combine mode the content of the combined output file is
exactly the concatenation of the succeeded tasks' output strings in
completion order (so no failed task's data appears and no fragment is
truncated or interleaved), and its length equals the sum of their output
lengths. -/
theorem c3_combined_output (net : String → DeviceBehavior)
    (writeFail : String → Option String)
    (username password enable : String) (commands : List String)
    (order : List String) (fs : FileSystem) :
    fsWrites fs (connect_and_run net writeFail username password enable commands true
        order).2 "combined_output.txt"
      = some (combinedContent (connect_and_run net writeFail username password enable
          commands true order).1) ∧
    (combinedContent (connect_and_run net writeFail username password enable commands
        true order).1).length
      = ((((connect_and_run net writeFail username password enable commands true
          order).1.filter (fun r => r.success)).map
            (fun r => r.output)).map String.length).sum := by
  constructor
  · have hw : (connect_and_run net writeFail username password enable commands true
        order).2 =
        (((runTasks net writeFail username password enable commands true order).2 ++
          [("combined_output.txt",
            combinedContent (runTasks net writeFail username password enable commands
              true order).1)]) ++
          artifactWrites (runTasks net writeFail username password enable commands
            true order).1) := rfl
    rw [hw, fsWrites_apply, lastWrite_append, lastWrite_artifacts_combined,
      runTasks_writes_combine]
    rfl
  · exact length_concatAll _

/-- Claim C1: a deduplicated target list run through connect_and_run yields
exactly one TaskResult per target; the error log and the failed-target list
each carry exactly one entry per failed task; when at least one task failed
both artifacts hold exactly those newline-terminated lines, and when no
task failed no failure artifact is written at all. -/
theorem c1_results_and_artifacts (net : String → DeviceBehavior)
    (writeFail : String → Option String)
    (username password enable : String) (commands : List String)
    (combine_output : Bool) (ip_list order : List String) (fs : FileSystem)
    (hperm : order.Perm ip_list) (hnodup : ip_list.Nodup) :
    (connect_and_run net writeFail username password enable commands combine_output
      order).1.length = ip_list.length ∧
    (errorLog (connect_and_run net writeFail username password enable commands
      combine_output order).1).length
      = (failedResults (connect_and_run net writeFail username password enable
          commands combine_output order).1).length ∧
    (failedIps (connect_and_run net writeFail username password enable commands
      combine_output order).1).length
      = (failedResults (connect_and_run net writeFail username password enable
          commands combine_output order).1).length ∧
    (0 < (failedResults (connect_and_run net writeFail username password enable
        commands combine_output order).1).length →
      fsWrites fs (connect_and_run net writeFail username password enable commands
          combine_output order).2 "connection_errors.txt"
        = some (joinLines (errorLog (connect_and_run net writeFail username password
            enable commands combine_output order).1)) ∧
      fsWrites fs (connect_and_run net writeFail username password enable commands
          combine_output order).2 "failed_ips.txt"
        = some (joinLines (failedIps (connect_and_run net writeFail username password
            enable commands combine_output order).1))) ∧
    ((failedResults (connect_and_run net writeFail username password enable commands
        combine_output order).1).length = 0 →
      artifactWrites (connect_and_run net writeFail username password enable commands
        combine_output order).1 = []) := by
  refine ⟨?_, ?_, ?_, ?_, ?_⟩
  · have h1 : (connect_and_run net writeFail username password enable commands
        combine_output order).1
      = (runTasks net writeFail username password enable commands combine_output
          order).1 := rfl
    rw [h1, runTasks_results, List.length_map, hperm.length_eq]
  · simp [errorLog]
  · simp [failedIps]
  · intro hK
    apply final_artifact_reads
    intro hc
    rw [hc] at hK
    simp at hK
  · intro hK
    have hnil : failedResults (connect_and_run net writeFail username password enable
        commands combine_output order).1 = [] := List.length_eq_zero.mp hK
    unfold artifactWrites
    rw [show errorLog (connect_and_run net writeFail username password enable commands
        combine_output order).1 = [] from by unfold errorLog; rw [hnil]; rfl]
    rw [show failedIps (connect_and_run net writeFail username password enable
        commands combine_output order).1 = [] from by
      unfold failedIps; rw [hnil]; rfl]
    simp

/-- Witness for C1: the spec's concrete scenario, two deduplicated targets
of which one fails, run with completion order opposite to submission. -/
theorem c1_results_and_artifacts_witness :
    (connect_and_run netW writeOkW "admin" "pw" "en" ["show version"] false
      ["10.0.0.2", "10.0.0.1"]).1.length
        = (["10.0.0.1", "10.0.0.2"] : List String).length ∧
    (errorLog (connect_and_run netW writeOkW "admin" "pw" "en" ["show version"]
      false ["10.0.0.2", "10.0.0.1"]).1).length
      = (failedResults (connect_and_run netW writeOkW "admin" "pw" "en"
          ["show version"] false ["10.0.0.2", "10.0.0.1"]).1).length ∧
    (failedIps (connect_and_run netW writeOkW "admin" "pw" "en" ["show version"]
      false ["10.0.0.2", "10.0.0.1"]).1).length
      = (failedResults (connect_and_run netW writeOkW "admin" "pw" "en"
          ["show version"] false ["10.0.0.2", "10.0.0.1"]).1).length ∧
    (0 < (failedResults (connect_and_run netW writeOkW "admin" "pw" "en"
        ["show version"] false ["10.0.0.2", "10.0.0.1"]).1).length →
      fsWrites fsEmpty (connect_and_run netW writeOkW "admin" "pw" "en"
          ["show version"] false ["10.0.0.2", "10.0.0.1"]).2
          "connection_errors.txt"
        = some (joinLines (errorLog (connect_and_run netW writeOkW "admin" "pw" "en"
            ["show version"] false ["10.0.0.2", "10.0.0.1"]).1)) ∧
      fsWrites fsEmpty (connect_and_run netW writeOkW "admin" "pw" "en"
          ["show version"] false ["10.0.0.2", "10.0.0.1"]).2
          "failed_ips.txt"
        = some (joinLines (failedIps (connect_and_run netW writeOkW "admin" "pw" "en"
            ["show version"] false ["10.0.0.2", "10.0.0.1"]).1))) ∧
    ((failedResults (connect_and_run netW writeOkW "admin" "pw" "en" ["show version"]
        false ["10.0.0.2", "10.0.0.1"]).1).length = 0 →
      artifactWrites (connect_and_run netW writeOkW "admin" "pw" "en"
        ["show version"] false ["10.0.0.2", "10.0.0.1"]).1 = []) :=
  c1_results_and_artifacts netW writeOkW "admin" "pw" "en" ["show version"] false
    ["10.0.0.1", "10.0.0.2"] ["10.0.0.2", "10.0.0.1"] fsEmpty
    (by decide) (by decide)

/-- Claim C5: artifact aggregation preserves completion order: for every
completion order in which results arrive at the collector, the error-log
lines are exactly the failed results' error strings in that order, and the
failed-target lines are those same tasks' targets in the same order. -/
theorem c5_completion_order (net : String → DeviceBehavior)
    (writeFail : String → Option String)
    (username password enable : String) (commands : List String)
    (combine_output : Bool) (order : List String) (fs : FileSystem)
    (hfail : failedResults (connect_and_run net writeFail username password enable
      commands combine_output order).1 ≠ []) :
    fsWrites fs (connect_and_run net writeFail username password enable commands
        combine_output order).2 "connection_errors.txt"
      = some (joinLines
          (((order.map (fun ip => (connect_and_run_single (net ip) writeFail ip
            username password enable commands combine_output).1)).filter
              (fun r => !r.success)).map (fun r => r.error))) ∧
    fsWrites fs (connect_and_run net writeFail username password enable commands
        combine_output order).2 "failed_ips.txt"
      = some (joinLines
          (((order.map (fun ip => (connect_and_run_single (net ip) writeFail ip
            username password enable commands combine_output).1)).filter
              (fun r => !r.success)).map (fun r => r.ip))) := by
  have h := final_artifact_reads net writeFail username password enable commands
    combine_output order fs hfail
  have hres : (connect_and_run net writeFail username password enable commands
      combine_output order).1
    = order.map (fun ip => (connect_and_run_single (net ip) writeFail ip username
        password enable commands combine_output).1) := runTasks_results
          net writeFail username password enable commands combine_output order
  rw [hres] at h
  exact h

/-- Witness for C5: two failing targets whose completion order is the
reverse of their submission order; the artifact lines follow the
completion order. -/
theorem c5_completion_order_witness :
    failedResults (connect_and_run netAllFail writeOkW "admin" "pw" "en"
      ["show version"] false ["10.0.0.9", "10.0.0.8"]).1 ≠ [] ∧
    (fsWrites fsEmpty (connect_and_run netAllFail writeOkW "admin" "pw" "en"
        ["show version"] false ["10.0.0.9", "10.0.0.8"]).2
        "connection_errors.txt"
      = some (joinLines
          ((((["10.0.0.9", "10.0.0.8"] : List String).map
            (fun ip => (connect_and_run_single (netAllFail ip) writeOkW ip
              "admin" "pw" "en" ["show version"] false).1)).filter
              (fun r => !r.success)).map (fun r => r.error))) ∧
    fsWrites fsEmpty (connect_and_run netAllFail writeOkW "admin" "pw" "en"
        ["show version"] false ["10.0.0.9", "10.0.0.8"]).2
        "failed_ips.txt"
      = some (joinLines
          ((((["10.0.0.9", "10.0.0.8"] : List String).map
            (fun ip => (connect_and_run_single (netAllFail ip) writeOkW ip
              "admin" "pw" "en" ["show version"] false).1)).filter
              (fun r => !r.success)).map (fun r => r.ip)))) :=
  ⟨by decide,
   c5_completion_order netAllFail writeOkW "admin" "pw" "en" ["show version"] false
     ["10.0.0.9", "10.0.0.8"] fsEmpty (by decide)⟩

/-- Claim C2 counterexample: the claim covers the per-device task of the
legacy variant too (src/show_v2.py lines 67 to 72), but that variant
converts a failure into an error string carrying an extra "[ERROR] "
prefix, so at a concrete failing device the error is not equal to the
claimed target colon cause format. -/
theorem c2_counterexample :
    (connect_and_run_single_v2 (DeviceBehavior.connectFail "timeout")
      writeOkW "10.0.0.2" "admin" "pw" "en" ["show version"] false).1.error
      = "[ERROR] 10.0.0.2: timeout" ∧
    ¬((connect_and_run_single_v2 (DeviceBehavior.connectFail "timeout")
      writeOkW "10.0.0.2" "admin" "pw" "en" ["show version"] false).1.error
      = "10.0.0.2: timeout") :=
  ⟨rfl, by decide⟩

/-- Claim C2 (amended): the per-device task never raises past its own
boundary: every transport failure (connect, enable, or any command send)
is caught and yields a returned TaskResult with succeeded false; in the
packaged CLI (show_cli/main.py) the error string is exactly the target,
a colon and a space, and the cause, while the legacy variants
(src/show_v2.py, src/show_v3.py) prefix that string with "[ERROR] "; and
one failed task never prevents sibling tasks from producing their results:
every submitted target yields exactly the result of its own task. -/
theorem c2_failure_contained (net : String → DeviceBehavior)
    (writeFail : String → Option String)
    (username password enable : String) (commands : List String)
    (combine_output : Bool) (ip cause : String)
    (hfail : firstFailure (net ip) commands = some cause) :
    (connect_and_run_single (net ip) writeFail ip username password enable commands
      combine_output).1.success = false ∧
    (connect_and_run_single (net ip) writeFail ip username password enable commands
      combine_output).1.error = ip ++ ": " ++ cause ∧
    (connect_and_run_single_v2 (net ip) writeFail ip username password enable commands
      combine_output).1.success = false ∧
    (connect_and_run_single_v2 (net ip) writeFail ip username password enable commands
      combine_output).1.error = "[ERROR] " ++ ip ++ ": " ++ cause ∧
    ∀ others : List String,
      (runTasks net writeFail username password enable commands combine_output
        others).1 =
        others.map (fun j => (connect_and_run_single (net j) writeFail j username
          password enable commands combine_output).1) := by
  have h := single_fail_result (net ip) writeFail ip username password enable commands
    combine_output cause hfail
  refine ⟨?_, ?_, ?_, ?_, fun others => runTasks_results net writeFail username
    password enable commands combine_output others⟩
  · rw [h.1]; rfl
  · rw [h.1]; rfl
  · rw [h.2]; rfl
  · rw [h.2]; rfl

/-- Witness for C2 at a concrete failing device. -/
theorem c2_failure_contained_witness :
    (connect_and_run_single (netW "10.0.0.2") writeOkW "10.0.0.2" "admin" "pw" "en"
      ["show version"] false).1.success = false ∧
    (connect_and_run_single (netW "10.0.0.2") writeOkW "10.0.0.2" "admin" "pw" "en"
      ["show version"] false).1.error = "10.0.0.2" ++ ": " ++ "timeout" ∧
    (connect_and_run_single_v2 (netW "10.0.0.2") writeOkW "10.0.0.2" "admin" "pw"
      "en" ["show version"] false).1.success = false ∧
    (connect_and_run_single_v2 (netW "10.0.0.2") writeOkW "10.0.0.2" "admin" "pw"
      "en" ["show version"] false).1.error
      = "[ERROR] " ++ "10.0.0.2" ++ ": " ++ "timeout" ∧
    ∀ others : List String,
      (runTasks netW writeOkW "admin" "pw" "en" ["show version"] false others).1 =
        others.map (fun j => (connect_and_run_single (netW j) writeOkW j "admin"
          "pw" "en" ["show version"] false).1) :=
  c2_failure_contained netW writeOkW "admin" "pw" "en" ["show version"] false
    "10.0.0.2" "timeout" (by decide)

/-- Claim C7 counterexample: the source computes the hostname with Python
strip, which removes the delimiter from BOTH ends of the reported prompt,
not only a trailing delimiter: at the concrete prompt with a leading and a
trailing delimiter the code yields a hostname different from the prompt
with only the trailing delimiter trimmed. -/
theorem c7_counterexample :
    (connect_and_run_single promptDevW writeOkW "10.0.0.5" "admin" "pw" "en"
      ["show version"] true).1.hostname = some "R1" ∧
    specTrimTrailingHash "#R1#" = "#R1" ∧
    ¬(("R1" : String) = "#R1") :=
  ⟨rfl, rfl, by decide⟩

/-- Claim C7 (amended): on the success path the hostname is the
device-reported prompt with every leading AND trailing delimiter character
trimmed (Python strip semantics), and the output is the concatenation, over
the commands in order, of one fragment per command in the exact format
newline, three equals signs, space, hostname, space, parenthesised target,
space, dash, space, command, space, three equals signs, newline, raw
output, newline. -/
theorem c7_success_hostname_and_format (sess : SessionBehavior)
    (writeFail : String → Option String)
    (ip username password enable : String) (commands outs : List String)
    (combine_output : Bool) (henable : sess.enableError = none)
    (hsend : sendAll sess commands = .ok outs) :
    (connect_and_run_single (.connected sess) writeFail ip username password enable
      commands combine_output).1.hostname
      = some (pyStripHash sess.prompt) ∧
    (connect_and_run_single (.connected sess) writeFail ip username password enable
      commands combine_output).1.output
      = concatAll (List.zipWith (fun cmd out =>
          fragment (pyStripHash sess.prompt) ip cmd out) commands outs) ∧
    (combine_output = true →
      (connect_and_run_single (.connected sess) writeFail ip username password
        enable commands combine_output).1.success = true) ∧
    (writeFail (pyStripHash sess.prompt ++ "_" ++ replaceDots ip ++ ".txt")
        = none →
      (connect_and_run_single (.connected sess) writeFail ip username password
        enable commands combine_output).1.success = true) := by
  have hr := runCommands_ok_of_sendAll sess (pyStripHash sess.prompt) ip
    commands outs hsend
  cases combine_output with
  | true => simp [connect_and_run_single, henable, hr]
  | false =>
    cases hw : writeFail (pyStripHash sess.prompt ++ "_" ++
        replaceDots ip ++ ".txt") with
    | some cause => simp [connect_and_run_single, henable, hr, hw]
    | none => simp [connect_and_run_single, henable, hr, hw]

/-- Witness for C7 at a concrete session and command list. -/
theorem c7_success_hostname_and_format_witness :
    (connect_and_run_single (.connected sessW) writeOkW "10.0.0.5" "admin" "pw" "en"
      ["show version"] true).1.hostname
      = some (pyStripHash sessW.prompt) ∧
    (connect_and_run_single (.connected sessW) writeOkW "10.0.0.5" "admin" "pw" "en"
      ["show version"] true).1.output
      = concatAll (List.zipWith (fun cmd out =>
          fragment (pyStripHash sessW.prompt) "10.0.0.5" cmd out)
          ["show version"] ["out"]) ∧
    (true = true →
      (connect_and_run_single (.connected sessW) writeOkW "10.0.0.5" "admin"
        "pw" "en" ["show version"] true).1.success = true) ∧
    (writeOkW (pyStripHash sessW.prompt ++ "_" ++ replaceDots "10.0.0.5"
        ++ ".txt") = none →
      (connect_and_run_single (.connected sessW) writeOkW "10.0.0.5" "admin"
        "pw" "en" ["show version"] true).1.success = true) :=
  c7_success_hostname_and_format sessW writeOkW "10.0.0.5" "admin" "pw" "en"
    ["show version"] ["out"] true rfl rfl

/-- Claim C10: merge_args_with_config never overrides a field that already
has a non-None value from the command line (config values fill only fields
that are None, and the config field itself is never modified); the config
key and keys not present in the namespace are ignored; and blank string
values for the nullable fields (user, ip_file, cmds, cmd_file, output_dir)
are skipped rather than applied. -/
theorem c10_merge_fills_only_none (args : CliNamespace)
    (config : List (String × String)) (ns : CliNamespace)
    (h : merge_args_with_config args config = .ok ns) :
    NsPreserved args ns ∧
    (∀ ns' value, mergeStep ns' "config" value = .ok ns') ∧
    (∀ ns' key value, replaceDashUnderscore key ∉ namespaceAttrs →
      mergeStep ns' key value = .ok ns') ∧
    (∀ ns' key value, replaceDashUnderscore key ∈ nullable_fields →
      pyStrip value = "" → mergeStep ns' key value = .ok ns') :=
  ⟨merge_preserves args config ns h,
   fun ns' value => mergeStep_config_skip ns' value,
   fun ns' key value hk => mergeStep_unknown_skip ns' key value hk,
   fun ns' key value hk hb => mergeStep_blank_nullable ns' key value hk hb⟩

/-- Witness for C10: a concrete namespace with user set on the command line
merged with a config that tries to override user, fills threads and
combine, has a blank nullable value and an unknown key. -/
theorem c10_merge_fills_only_none_witness :
    NsPreserved argsW nsW ∧
    (∀ ns' value, mergeStep ns' "config" value = .ok ns') ∧
    (∀ ns' key value, replaceDashUnderscore key ∉ namespaceAttrs →
      mergeStep ns' key value = .ok ns') ∧
    (∀ ns' key value, replaceDashUnderscore key ∈ nullable_fields →
      pyStrip value = "" → mergeStep ns' key value = .ok ns') :=
  c10_merge_fills_only_none argsW configW nsW (by rfl)

end ShowCli
